import Mathlib

/-!
Verification of the OCR adapter and chat handler of `chatbot_ui.py`.

The development shallowly embeds the Python source: Python values that flow
through the result normalizer are modelled by the inductive `PyVal`; Python
exceptions are modelled by `PyExc`, and every fallible operation returns
`Except PyExc _`, so that a `try`/`except` statement of the source becomes a
`match` on the `Except` value and an uncaught exception would surface as an
`Except.error` result of the embedded function.
-/

/-- A Python exception, identified by its message text. -/
structure PyExc where
  msg : String
deriving DecidableEq

/-- A Python runtime value, covering the shapes the normalizer inspects:
`None`, strings, integers, lists, tuples, string-keyed dicts, and opaque
leaf objects (for example floats) carrying their display text and their
truthiness. -/
inductive PyVal where
  | none
  | str (s : String)
  | int (n : Int)
  | list (xs : List PyVal)
  | tuple (xs : List PyVal)
  | dict (kvs : List (String × PyVal))
  | obj (rep : String) (truthy : Bool)

/-- The decimal digit character for `n % 10`. -/
def digitChar10 (n : Nat) : Char :=
  match n with
  | 0 => '0' | 1 => '1' | 2 => '2' | 3 => '3' | 4 => '4'
  | 5 => '5' | 6 => '6' | 7 => '7' | 8 => '8' | _ => '9'

/-- Fuel-driven decimal rendering of a natural number (fuel-structural so the
kernel can evaluate it). -/
def natCharsGo : Nat → Nat → List Char → List Char
  | 0, _, acc => acc
  | fuel + 1, n, acc =>
      if n < 10 then digitChar10 (n % 10) :: acc
      else natCharsGo fuel (n / 10) (digitChar10 (n % 10) :: acc)

/-- Decimal digits of a natural number, as Python `str` renders it. -/
def natChars (n : Nat) : List Char := natCharsGo (n + 1) n []

/-- Python `str` of an `int`. -/
def intChars (n : Int) : List Char :=
  match n with
  | Int.ofNat m => natChars m
  | Int.negSucc m => '-' :: natChars (m + 1)

mutual

/-- Python `repr` of a value, as a character list. -/
def pyReprL : PyVal → List Char
  | PyVal.none => ['N', 'o', 'n', 'e']
  | PyVal.str s => '\x27' :: s.data ++ ['\x27']
  | PyVal.int n => intChars n
  | PyVal.list xs => '[' :: pyReprLList xs ++ [']']
  | PyVal.tuple xs => '(' :: pyReprLTup xs ++ [')']
  | PyVal.dict kvs => '\x7b' :: pyReprLKVs kvs ++ ['\x7d']
  | PyVal.obj rep _ => rep.data

/-- `repr` of tuple elements: a singleton gets a trailing comma, as in
Python. -/
def pyReprLTup : List PyVal → List Char
  | [] => []
  | [x] => pyReprL x ++ [',']
  | x :: y :: xs => pyReprL x ++ ',' :: ' ' :: pyReprLList (y :: xs)

/-- `repr` of list elements joined by a comma and a space. -/
def pyReprLList : List PyVal → List Char
  | [] => []
  | [x] => pyReprL x
  | x :: y :: xs => pyReprL x ++ ',' :: ' ' :: pyReprLList (y :: xs)

/-- `repr` of dict entries joined by a comma and a space. -/
def pyReprLKVs : List (String × PyVal) → List Char
  | [] => []
  | [(k, v)] => '\x27' :: k.data ++ '\x27' :: ':' :: ' ' :: pyReprL v
  | (k, v) :: kv :: kvs =>
      '\x27' :: k.data ++ '\x27' :: ':' :: ' ' :: pyReprL v ++ ',' :: ' ' :: pyReprLKVs (kv :: kvs)

end

/-- Python `str` of a value, as a character list: the string itself for a
string, `repr` otherwise. -/
def pyStrL (v : PyVal) : List Char :=
  match v with
  | PyVal.str s => s.data
  | v => pyReprL v

/-- Python `str` of a value. -/
def pyStr (v : PyVal) : String := String.mk (pyStrL v)

/-- The whitespace characters Python `str.strip` removes. -/
def pyIsSpace (c : Char) : Bool :=
  c = ' ' || c = '\t' || c = '\n' || c = '\r' || c = '\x0b' || c = '\x0c'

/-- Python `str.strip` on a character list: drop whitespace from both ends. -/
def stripList (l : List Char) : List Char :=
  ((l.dropWhile pyIsSpace).reverse.dropWhile pyIsSpace).reverse

/-- Python `str.strip`. -/
def pyStrip (s : String) : String := String.mk (stripList s.data)

/-- Python `str.lower` (ASCII granularity). -/
def pyLower (s : String) : String := String.mk (s.data.map Char.toLower)

/-- Python truthiness of a value. -/
def pyTruthy : PyVal → Bool
  | PyVal.none => false
  | PyVal.str s => !s.data.isEmpty
  | PyVal.int n => n != 0
  | PyVal.list xs => !xs.isEmpty
  | PyVal.tuple xs => !xs.isEmpty
  | PyVal.dict kvs => !kvs.isEmpty
  | PyVal.obj _ t => t

/-- Python subscription `v[i]` for a natural index: succeeds on lists,
tuples and strings when in range, raises otherwise. -/
def pyIndex : PyVal → Nat → Except PyExc PyVal
  | PyVal.list xs, i =>
      match xs[i]? with
      | some v => Except.ok v
      | _ => Except.error ⟨"IndexError"⟩
  | PyVal.tuple xs, i =>
      match xs[i]? with
      | some v => Except.ok v
      | _ => Except.error ⟨"IndexError"⟩
  | PyVal.str s, i =>
      match s.data[i]? with
      | some c => Except.ok (PyVal.str (String.mk [c]))
      | _ => Except.error ⟨"IndexError"⟩
  | PyVal.dict _, _ => Except.error ⟨"KeyError"⟩
  | _, _ => Except.error ⟨"TypeError"⟩

/-- Python iteration `for x in v`: elements of a list or tuple, characters of
a string, keys of a dict; raises `TypeError` on non-iterables. -/
def pyIterL : PyVal → Except PyExc (List PyVal)
  | PyVal.list xs => Except.ok xs
  | PyVal.tuple xs => Except.ok xs
  | PyVal.str s => Except.ok (s.data.map (fun c => PyVal.str (String.mk [c])))
  | PyVal.dict kvs => Except.ok (kvs.map (fun kv => PyVal.str kv.1))
  | _ => Except.error ⟨"TypeError"⟩

/-- Python `len` on the sized shapes (only ever applied after an
`isinstance` guard in the embedded code). -/
def pyLen : PyVal → Nat
  | PyVal.list xs => xs.length
  | PyVal.tuple xs => xs.length
  | PyVal.str s => s.data.length
  | PyVal.dict kvs => kvs.length
  | _ => 0

/-- Python `isinstance(v, (list, tuple))`. -/
def isListOrTuple : PyVal → Bool
  | PyVal.list _ => true
  | PyVal.tuple _ => true
  | _ => false

/-- Python `isinstance(v, list)`. -/
def isPyList : PyVal → Bool
  | PyVal.list _ => true
  | _ => false

/-- Python `isinstance(v, dict)`. -/
def isPyDict : PyVal → Bool
  | PyVal.dict _ => true
  | _ => false

/-- Whether a value is iterable in Python. -/
def pyIterableB : PyVal → Bool
  | PyVal.list _ => true
  | PyVal.tuple _ => true
  | PyVal.str _ => true
  | PyVal.dict _ => true
  | _ => false

/-- Python substring containment `needle in haystack` on strings. -/
def pyInStr (needle haystack : String) : Bool :=
  (List.range (haystack.data.length + 1)).any
    (fun i => ((haystack.data.drop i).take needle.data.length) == needle.data)

/-!
## The OCR invocation prober, `safe_call_ocr`

The engine is an external collaborator: each of its entry points either
returns a raw result or raises.  `ocrArg` is the behaviour of
`model.ocr(img_arg)` on the argument as given (the source calls it
identically whether or not `is_path` is set), `ocrTmpPath` the behaviour of
`model.ocr(tmp_path)` on the fallback temp-file path, and `hasPredict`
models `hasattr(model, "predict")`.  `World` fixes the behaviour of the
image-save and file-remove collaborators; `Trace` records the side effects
the claims talk about.
-/

/-- The OCR engine collaborator. -/
structure Engine where
  ocrArg : Except PyExc PyVal
  hasPredict : Bool
  predictArg : Except PyExc PyVal
  ocrTmpPath : Except PyExc PyVal

/-- Behaviour of the temp-file collaborators: whether
`Image.fromarray(img_arg).save(tmp_path)` raises, and whether
`os.remove(tmp_path)` raises. -/
structure World where
  saveExc : Option PyExc
  removeExc : Option PyExc

/-- The Python value `safe_call_ocr` returns: either the documented triple
`(result, method_name, exception_if_any)` (with `errors = Option.none`
modelling a `None` third component and `some es` a tuple of exceptions), or
the bare `None` produced by falling off the end of the function body. -/
inductive ProbeRet where
  | triple (res : Option PyVal) (method : String) (errors : Option (List PyExc))
  | pyNone

/-- Side effects of one `safe_call_ocr` run: whether `model.predict` was
invoked, whether the temp file was created, whether `model.ocr` was invoked
on the temp path, whether `os.remove` was attempted, and whether the temp
file still exists when the call returns. -/
structure Trace where
  predictCalled : Bool := false
  tmpCreated : Bool := false
  ocrPathCalled : Bool := false
  removeAttempted : Bool := false
  tmpExistsAfter : Bool := false
deriving DecidableEq

/-- Shallow embedding of `safe_call_ocr` (chatbot_ui.py lines 48-87).  The
result type `Except PyExc _` threads exceptions: a branch of the source that
let an exception escape would produce `Except.error`.  Each `try`/`except`
of the source is a `match` on the fallible operation it guards; the
`finally` around `os.remove` (whose own failure the source swallows with a
bare `except: pass`) is reflected in `removeAttempted`/`tmpExistsAfter`. -/
def safe_call_ocr (model : Engine) (is_path : Bool) (w : World) :
    Except PyExc (ProbeRet × Trace) :=
  match model.ocrArg with
  | Except.ok res =>
      Except.ok (ProbeRet.triple (some res) "ocr(img)" Option.none, {})
  | Except.error e1 =>
      if model.hasPredict then
        match model.predictArg with
        | Except.ok res =>
            Except.ok (ProbeRet.triple (some res) "predict(img)" Option.none,
              { predictCalled := true })
        | Except.error e2 =>
            if !is_path then
              match w.saveExc with
              | some e3 =>
                  Except.ok (ProbeRet.triple Option.none "failed_all" (some [e1, e2, e3]),
                    { predictCalled := true, tmpCreated := true, tmpExistsAfter := true })
              | Option.none =>
                  let tr : Trace :=
                    { predictCalled := true, tmpCreated := true, ocrPathCalled := true,
                      removeAttempted := true, tmpExistsAfter := !w.removeExc.isNone }
                  match model.ocrTmpPath with
                  | Except.ok res =>
                      Except.ok (ProbeRet.triple (some res) "ocr(path)" Option.none, tr)
                  | Except.error e3 =>
                      Except.ok (ProbeRet.triple Option.none "failed_all" (some [e1, e2, e3]), tr)
            else
              Except.ok (ProbeRet.triple Option.none "failed_all" (some [e1, e2]),
                { predictCalled := true })
      else
        Except.ok (ProbeRet.pyNone, {})

/-!
## The result normalizer, `parse_paddle_result`
-/

/-- The per-element fallback of the normalizer (source lines 118-124): if
the primary extraction raised, append `str(item[0])` when the element is a
2+-length sequence, raw and unchecked; skip otherwise. -/
def itemFallback (item : PyVal) : Option String :=
  if isListOrTuple item && decide (2 ≤ pyLen item) then
    match pyIndex item 0 with
    | Except.ok x => some (String.mk (pyStrL x))
    | Except.error _ => Option.none
  else Option.none

/-- Processing of one element of a sequence-shaped block (source lines
111-124): read `item[1]`, take its first component when it is a list or a
tuple, and keep the stripped text when truthy and non-blank; any failure
falls to `itemFallback`. -/
def processItem (item : PyVal) : Option String :=
  match pyIndex item 1 with
  | Except.error _ => itemFallback item
  | Except.ok i1 =>
      match (if isListOrTuple i1 then pyIndex i1 0 else Except.ok i1) with
      | Except.error _ => itemFallback item
      | Except.ok text =>
          if pyTruthy text && !(stripList (pyStrL text)).isEmpty then
            some (String.mk (stripList (pyStrL text)))
          else Option.none

/-- Processing of one top-level block (source lines 100-132).  A dict block
reads its "rec_texts" entry and iterates it (iteration of a non-iterable
value raises, and that exception escapes the block to the outer handler); a
list block filters its elements through `processItem`; any other block is
stringified when non-blank. -/
def processBlock (block : PyVal) : Except PyExc (List String) :=
  match block with
  | PyVal.dict kvs =>
      match kvs.find? (fun kv => kv.1 == "rec_texts") with
      | some kv =>
          match pyIterL kv.2 with
          | Except.ok ts =>
              Except.ok (ts.filterMap (fun t =>
                if pyTruthy t && !(stripList (pyStrL t)).isEmpty then
                  some (String.mk (stripList (pyStrL t)))
                else Option.none))
          | Except.error e => Except.error e
      | Option.none => Except.ok []
  | PyVal.list items => Except.ok (items.filterMap processItem)
  | other =>
      Except.ok (if (stripList (pyStrL other)).isEmpty then []
                 else [String.mk (stripList (pyStrL other))])

/-- Sequencing of the top-level blocks: an exception from any block discards
all lines collected so far, as the single `lines` accumulator of the source
is abandoned when the outer `except` fires. -/
def goBlocks : List PyVal → Except PyExc (List String)
  | [] => Except.ok []
  | b :: bs =>
      match processBlock b with
      | Except.error e => Except.error e
      | Except.ok ls =>
          match goBlocks bs with
          | Except.error e => Except.error e
          | Except.ok rest => Except.ok (ls ++ rest)

/-- The body of the outer `try` of the normalizer: non-list raw results are
not iterated and yield the empty list. -/
def parseTry (raw : PyVal) : Except PyExc (List String) :=
  match raw with
  | PyVal.list bs => goBlocks bs
  | _ => Except.ok []

/-- Shallow embedding of `parse_paddle_result` (chatbot_ui.py lines
89-136): `None` yields `[]`; otherwise the guarded walk runs, and an
exception escaping it is caught by the outer handler, which returns the
singleton stringified raw value. -/
def parse_paddle_result (raw : PyVal) : List String :=
  match raw with
  | PyVal.none => []
  | _ =>
      match parseTry raw with
      | Except.ok lines => lines
      | Except.error _ => [String.mk (pyStrL raw)]

/-!
## The remote completion call, `ask_ollama`, and the Send handler
-/

/-- An HTTP response: status code, body text, and the outcome of parsing the
body as JSON (`response.json()` can raise). -/
structure HttpResponse where
  status_code : Nat
  text : String
  jsonVal : Except PyExc PyVal

/-- Python `d.get(key, default)`: raises `AttributeError` when the receiver
is not a dict. -/
def pyGetDefault (v : PyVal) (k : String) (dflt : PyVal) : Except PyExc PyVal :=
  match v with
  | PyVal.dict kvs =>
      Except.ok (((kvs.find? (fun kv => kv.1 == k)).map Prod.snd).getD dflt)
  | _ => Except.error ⟨"AttributeError"⟩

/-- Shallow embedding of `ask_ollama` (chatbot_ui.py lines 186-197).  `post`
is the transport collaborator, a function of the timeout argument; the
source passes the fixed timeout 120.  Every exception of the body (transport
failure, JSON parse failure, `.get` on a non-dict) is caught by the single
`except` and rendered as an error string. -/
def ask_ollama (post : Nat → Except PyExc HttpResponse) : PyVal :=
  match post 120 with
  | Except.error e => PyVal.str ("Ollama error: " ++ e.msg)
  | Except.ok r =>
      if r.status_code = 200 then
        match r.jsonVal with
        | Except.error e => PyVal.str ("Ollama error: " ++ e.msg)
        | Except.ok j =>
            match pyGetDefault j "response" (PyVal.str "") with
            | Except.ok v => v
            | Except.error e => PyVal.str ("Ollama error: " ++ e.msg)
      else PyVal.str ("Error: " ++ toString r.status_code ++ " " ++ r.text)

/-- The canned-response table (chatbot_ui.py lines 167-176), in source
order.  The time and date replies interpolate the clock strings computed at
module load, passed here as parameters. -/
def responses (timeStr dateStr : String) : List (String × String) :=
  [ ("hello", "Hello! How can I assist you?"),
    ("hi", "Hi there! What can I do for you?"),
    ("how are you", "I\x27m just a program, but I\x27m doing great!"),
    ("your name", "I\x27m Gemma 3 Chatbot, created using Streamlit!"),
    ("time", "The current time is " ++ timeStr ++ "."),
    ("date", "Today\x27s date is " ++ dateStr ++ "."),
    ("bye", "Goodbye! Have a nice day."),
    ("thanks", "You\x27re welcome!") ]

/-- The keyword loop of the Send handler (source lines 204-207): first table
entry whose keyword is a substring of the prepared text wins. -/
def cannedReply (tbl : List (String × String)) (text : String) : Option String :=
  match tbl with
  | [] => Option.none
  | kv :: rest => if pyInStr kv.1 text then some kv.2 else cannedReply rest text

/-- One chat message of the conversation history. -/
structure ChatMsg where
  role : String
  content : String
deriving DecidableEq

/-- Reply selection of the Send handler (source lines 202-214): the canned
table first; failing that, the arithmetic path when the prepared text has a
digit (`evalFn` is the `eval` collaborator on the raw input, its failure
replaced by the fixed apology); failing both, the remote completion reply.
The boolean records whether the remote call was made. -/
def computeReply (tbl : List (String × String)) (user_input : String)
    (evalFn : String → Except PyExc PyVal) (ollamaReply : String) : String × Bool :=
  let text := pyStrip (pyLower user_input)
  match cannedReply tbl text with
  | some r => (r, false)
  | Option.none =>
      if text.data.any Char.isDigit then
        (match evalFn user_input with
         | Except.ok v => String.mk (pyStrL v)
         | Except.error _ => "Couldn\x27t evaluate expression.", false)
      else (ollamaReply, true)

/-- Shallow embedding of the Send handler (chatbot_ui.py lines 199-216): a
blank-after-strip input leaves the history untouched and makes no remote
call; otherwise the user message and the selected reply are appended. -/
def sendHandler (msgs : List ChatMsg) (user_input : String)
    (tbl : List (String × String)) (evalFn : String → Except PyExc PyVal)
    (ollamaReply : String) : List ChatMsg × Bool :=
  if pyStrip user_input = "" then (msgs, false)
  else
    let rb := computeReply tbl user_input evalFn ollamaReply
    (msgs ++ [⟨"user", user_input⟩, ⟨"assistant", rb.1⟩], rb.2)

/-!
## Claim-specific predicates and concrete inputs
-/

/-- An element of a sequence-shaped block for which the primary extraction
of the normalizer succeeds, so the element-level fallback is never
reached: `item[1]` is readable and, when it is a list or tuple, has a first
component. -/
def itemOk (item : PyVal) : Bool :=
  match pyIndex item 1 with
  | Except.error _ => false
  | Except.ok i1 =>
      if isListOrTuple i1 then
        match pyIndex i1 0 with
        | Except.ok _ => true
        | Except.error _ => false
      else true

/-- A top-level block none of whose elements reaches the element-level
fallback. -/
def blockOk (b : PyVal) : Bool :=
  match b with
  | PyVal.list items => items.all itemOk
  | _ => true

/-- A raw result in which the element-level fallback is never reached. -/
def noFallbackRaw (raw : PyVal) : Bool :=
  match raw with
  | PyVal.list bs => bs.all blockOk
  | _ => true

/-- An engine whose primary call raises and which exposes no `predict`
attribute: the input on which `safe_call_ocr` falls off the end of its body. -/
def c1engine : Engine :=
  ⟨Except.error ⟨"boom"⟩, false, Except.ok PyVal.none, Except.ok PyVal.none⟩

/-- A world in which the save and remove collaborators succeed. -/
def quietWorld : World := ⟨Option.none, Option.none⟩

/-- An engine whose primary and alternate calls both raise. -/
def c4engine : Engine :=
  ⟨Except.error ⟨"e1"⟩, true, Except.error ⟨"e2"⟩, Except.ok PyVal.none⟩

/-- A world in which writing the image array to the temp file raises. -/
def c4world : World := ⟨some ⟨"disk full"⟩, Option.none⟩

/-- A raw result whose single entry is a sequence holding one element
`["", []]`: reading `item[1][0]` raises (empty inner list), and the
fallback appends the raw `str(item[0])`, the empty string. -/
def c3input : PyVal :=
  PyVal.list [PyVal.list [PyVal.list [PyVal.str "", PyVal.list []]]]

/-- The bounding box of the reference example. -/
def c7box : PyVal :=
  PyVal.list [PyVal.list [PyVal.int 0, PyVal.int 0], PyVal.list [PyVal.int 1, PyVal.int 0],
    PyVal.list [PyVal.int 1, PyVal.int 1], PyVal.list [PyVal.int 0, PyVal.int 1]]

/-- The raw result literally as the reference example writes it:
`[[ [[0,0],[1,0],[1,1],[0,1]], ("Hello", 0.98) ]]` — the outer list holds
one list whose two elements are the box and the (text, confidence) pair. -/
def c7specExample1 : PyVal :=
  PyVal.list [PyVal.list [c7box, PyVal.tuple [PyVal.str "Hello", PyVal.obj "0.98" true]]]

/-- The same data with the per-line nesting the engine actually produces:
`[[ [box, ("Hello", 0.98)] ]]`, the page list holding one line entry. -/
def c7nested1 : PyVal :=
  PyVal.list [PyVal.list [PyVal.list [c7box, PyVal.tuple [PyVal.str "Hello", PyVal.obj "0.98" true]]]]

/-- The second reference example: `[{"rec_texts": ["A", "", "  B  "]}]`. -/
def c7example2 : PyVal :=
  PyVal.list [PyVal.dict [("rec_texts", PyVal.list [PyVal.str "A", PyVal.str "", PyVal.str "  B  "])]]

/-- A raw result whose dict entry carries a non-iterable "rec_texts" value,
driving the normalizer into its last-resort handler. -/
def c6badRaw : PyVal := PyVal.list [PyVal.dict [("rec_texts", PyVal.int 7)]]

/-!
## Helper lemmas about `stripList`
-/

theorem dropWhile_head_false {p : Char → Bool} :
    ∀ (l : List Char) (a : Char) (t : List Char), List.dropWhile p l = a :: t → p a = false := by
  intro l
  induction l with
  | nil => intro a t h; simp [List.dropWhile] at h
  | cons x xs ih =>
      intro a t h
      cases hpx : p x with
      | true => rw [List.dropWhile_cons, if_pos hpx] at h; exact ih a t h
      | false => rw [List.dropWhile_cons, if_neg (by simp [hpx])] at h; cases h; exact hpx

theorem dropWhile_after_strip (m : List Char) :
    List.dropWhile pyIsSpace (List.rdropWhile pyIsSpace (List.dropWhile pyIsSpace m)) =
    List.rdropWhile pyIsSpace (List.dropWhile pyIsSpace m) := by
  cases hr : List.rdropWhile pyIsSpace (List.dropWhile pyIsSpace m) with
  | nil => simp
  | cons a t =>
      obtain ⟨u, hu⟩ := List.dropWhile_suffix (l := (List.dropWhile pyIsSpace m).reverse) pyIsSpace
      have hd2 : (List.dropWhile pyIsSpace (List.dropWhile pyIsSpace m).reverse).reverse
          ++ u.reverse = List.dropWhile pyIsSpace m := by
        have h3 := congrArg List.reverse hu
        simpa using h3
      have hrd : List.rdropWhile pyIsSpace (List.dropWhile pyIsSpace m) =
          (List.dropWhile pyIsSpace (List.dropWhile pyIsSpace m).reverse).reverse := rfl
      rw [hrd] at hr
      rw [hr] at hd2
      have hda : List.dropWhile pyIsSpace m = a :: (t ++ u.reverse) := by
        rw [← hd2]; simp
      have hpa : pyIsSpace a = false := dropWhile_head_false m a _ hda
      rw [List.dropWhile_cons, if_neg (by simp [hpa])]

theorem stripList_idem (l : List Char) : stripList (stripList l) = stripList l := by
  have e : ∀ x : List Char,
      stripList x = List.rdropWhile pyIsSpace (List.dropWhile pyIsSpace x) := fun _ => rfl
  rw [e, e, dropWhile_after_strip, List.rdropWhile_idempotent]

theorem stripList_bracketed (m : List Char) :
    stripList (('[' :: m) ++ [']']) = ('[' :: m) ++ [']'] := by
  have e : stripList (('[' :: m) ++ [']']) =
      List.rdropWhile pyIsSpace (List.dropWhile pyIsSpace (('[' :: m) ++ [']'])) := rfl
  have hcons : (('[' :: m) ++ [']'] : List Char) = '[' :: (m ++ [']']) := by simp
  have h1 : List.dropWhile pyIsSpace (('[' :: m) ++ [']']) = ('[' :: m) ++ [']'] := by
    rw [hcons, List.dropWhile_cons, if_neg (by simp [pyIsSpace])]
  rw [e, h1, List.rdropWhile_concat_neg _ _ _ (by simp [pyIsSpace])]

theorem mk_strip_ne_empty {m : List Char} (h : (stripList m).isEmpty = false) :
    String.mk (stripList m) ≠ "" := by
  intro hEq
  have hdata := congrArg String.data hEq
  cases hs : stripList m with
  | nil => rw [hs] at h; simp at h
  | cons a t => rw [hs] at hdata; simp at hdata

theorem pyStrip_mk (m : List Char) : pyStrip (String.mk m) = String.mk (stripList m) := rfl

/-!
## Output-shape lemmas for the normalizer
-/

theorem processItem_ok_good (item : PyVal) (hok : itemOk item = true) (s : String)
    (h : processItem item = some s) :
    ∃ m, s = String.mk (stripList m) ∧ (stripList m).isEmpty = false := by
  unfold processItem at h
  unfold itemOk at hok
  cases h1 : pyIndex item 1 with
  | error e => rw [h1] at hok; simp at hok
  | ok i1 =>
      rw [h1] at h hok
      dsimp only at h hok
      by_cases hlt : isListOrTuple i1 = true
      · rw [if_pos hlt] at h hok
        cases h0 : pyIndex i1 0 with
        | error e => rw [h0] at hok; simp at hok
        | ok text =>
            rw [h0] at h
            dsimp only at h
            split at h
            · rename_i hguard
              refine ⟨pyStrL text, by cases h; rfl, ?_⟩
              simp only [Bool.and_eq_true] at hguard
              simpa using hguard.2
            · cases h
      · rw [if_neg hlt] at h
        dsimp only at h
        split at h
        · rename_i hguard
          refine ⟨pyStrL i1, by cases h; rfl, ?_⟩
          simp only [Bool.and_eq_true] at hguard
          simpa using hguard.2
        · cases h

theorem processBlock_ok_good (b : PyVal) (hb : blockOk b = true) (ls : List String)
    (h : processBlock b = Except.ok ls) (s : String) (hs : s ∈ ls) :
    ∃ m, s = String.mk (stripList m) ∧ (stripList m).isEmpty = false := by
  cases b
  case dict kvs =>
      dsimp only [processBlock] at h
      cases hf : kvs.find? (fun kv => kv.1 == "rec_texts") with
      | none => rw [hf] at h; cases h; simp at hs
      | some kv =>
          rw [hf] at h
          dsimp only at h
          cases hit : pyIterL kv.2 with
          | error e => rw [hit] at h; cases h
          | ok ts =>
              rw [hit] at h
              dsimp only at h
              cases h
              obtain ⟨t, _, ht⟩ := List.mem_filterMap.mp hs
              split at ht
              · rename_i hguard
                refine ⟨pyStrL t, by cases ht; rfl, ?_⟩
                simp only [Bool.and_eq_true] at hguard
                simpa using hguard.2
              · cases ht
  case list items =>
      dsimp only [processBlock] at h
      cases h
      obtain ⟨item, hmem, hitem⟩ := List.mem_filterMap.mp hs
      have hok : itemOk item = true := by
        have hall : items.all itemOk = true := by simpa [blockOk] using hb
        exact List.all_eq_true.mp hall item hmem
      exact processItem_ok_good item hok s hitem
  all_goals
    dsimp only [processBlock] at h
  all_goals
    cases h
  all_goals
    split at hs
  all_goals
    first
    | exact absurd hs (List.not_mem_nil s)
    | (rw [List.mem_singleton] at hs
       exact ⟨_, hs, by simp_all⟩)

theorem goBlocks_ok_good :
    ∀ (bs : List PyVal), (∀ b ∈ bs, blockOk b = true) →
    ∀ (ls : List String), goBlocks bs = Except.ok ls →
    ∀ s ∈ ls, ∃ m, s = String.mk (stripList m) ∧ (stripList m).isEmpty = false := by
  intro bs
  induction bs with
  | nil => intro _ ls h s hs; cases h; simp at hs
  | cons b rest ih =>
      intro hall ls h s hs
      unfold goBlocks at h
      cases hpb : processBlock b with
      | error e => rw [hpb] at h; cases h
      | ok ls1 =>
          rw [hpb] at h
          dsimp only at h
          cases hgo : goBlocks rest with
          | error e => rw [hgo] at h; cases h
          | ok ls2 =>
              rw [hgo] at h
              dsimp only at h
              cases h
              rcases List.mem_append.mp hs with h1 | h2
              · exact processBlock_ok_good b (hall b (by simp)) ls1 hpb s h1
              · exact ih (fun x hx => hall x (by simp [hx])) ls2 hgo s h2

/-- Claim C3, counterexample: on the raw result `[[["", []]]]` the element
fallback of `parse_paddle_result` fires (reading `item[1][0]` raises on the
empty inner list) and appends the raw `str(item[0])`, so the output is the
singleton empty string — refuting "every string in the output is non-empty
and whitespace-trimmed". -/
theorem c3_counterexample :
    parse_paddle_result c3input = [""] ∧
    ¬ (∀ s ∈ parse_paddle_result c3input, s ≠ "") := by
  refine ⟨by decide, ?_⟩
  intro hall
  exact hall "" (by decide) rfl

/-- Claim C3 (amended): for every raw result in which no element of a
sequence-shaped entry reaches the element-level fallback (the raw
`str(item[0])` path), every string in the output of `parse_paddle_result`
is non-empty and whitespace-trimmed. -/
theorem c3_amended (raw : PyVal) (hnf : noFallbackRaw raw = true) :
    ∀ s ∈ parse_paddle_result raw, s ≠ "" ∧ pyStrip s = s := by
  intro s hs
  cases raw
  case list bs =>
      dsimp only [parse_paddle_result, parseTry] at hs
      cases hgo : goBlocks bs with
      | ok ls =>
          rw [hgo] at hs
          dsimp only at hs
          have hall : ∀ b ∈ bs, blockOk b = true := by
            simpa [noFallbackRaw, List.all_eq_true] using hnf
          obtain ⟨m, hm, hne⟩ := goBlocks_ok_good bs hall ls hgo s hs
          subst hm
          exact ⟨mk_strip_ne_empty hne, by rw [pyStrip_mk, stripList_idem]⟩
      | error e =>
          rw [hgo] at hs
          dsimp only at hs
          rw [List.mem_singleton] at hs
          subst hs
          have hb : pyStrL (PyVal.list bs) = ('[' :: pyReprLList bs) ++ [']'] := rfl
          constructor
          · intro hEq
            have hdata : pyStrL (PyVal.list bs) = [] := congrArg String.data hEq
            rw [hb] at hdata
            simp at hdata
          · rw [pyStrip_mk, hb, stripList_bracketed]
  case none => exact absurd hs (List.not_mem_nil s)
  all_goals
    exact absurd hs (List.not_mem_nil s)

/-- Witness for C3 (amended) at the concrete dict-shaped raw result
`[{"rec_texts": ["A", "", "  B  "]}]` and its output line "B". -/
theorem c3_amended_witness :
    noFallbackRaw c7example2 = true ∧ "B" ∈ parse_paddle_result c7example2 ∧
    ("B" ≠ "" ∧ pyStrip "B" = "B") :=
  ⟨by decide, by decide, c3_amended c7example2 (by decide) "B" (by decide)⟩

/-- Claim C6: `parse_paddle_result` is total over every modelled input
shape (all internal exceptions are caught): a `None` input yields the empty
list; a non-iterable input yields the empty list; an exception escaping the
guarded walk (for example a dict entry whose "rec_texts" value is not
iterable) is caught by the outer handler, which returns the singleton
stringified raw value; and an element whose primary extraction raises is
handed to the local fallback instead of propagating. -/
theorem c6_defensive (raw : PyVal) :
    (raw = PyVal.none → parse_paddle_result raw = []) ∧
    (pyIterableB raw = false → parse_paddle_result raw = []) ∧
    (∀ e, parseTry raw = Except.error e → parse_paddle_result raw = [pyStr raw]) ∧
    (∀ item, itemOk item = false → processItem item = itemFallback item) := by
  refine ⟨?_, ?_, ?_, ?_⟩
  · intro h; subst h; rfl
  · intro h
    cases raw <;> first | rfl | simp [pyIterableB] at h
  · intro e he
    cases raw
    case list bs =>
        dsimp only [parseTry] at he
        dsimp only [parse_paddle_result, parseTry]
        rw [he]
        rfl
    all_goals (dsimp only [parseTry] at he; cases he)
  · intro item hno
    unfold processItem
    unfold itemOk at hno
    cases h1 : pyIndex item 1 with
    | error e => rfl
    | ok i1 =>
        rw [h1] at hno
        dsimp only at hno ⊢
        by_cases hlt : isListOrTuple i1 = true
        · rw [if_pos hlt] at hno ⊢
          cases h0 : pyIndex i1 0 with
          | error e => rfl
          | ok text => rw [h0] at hno; simp at hno
        · rw [if_neg hlt] at hno
          simp at hno

/-- Witness for C6 at two concrete inputs: the non-iterable raw value `5`,
and a dict block whose "rec_texts" value is the non-iterable `7`, which
drives the last-resort handler. -/
theorem c6_witness :
    (pyIterableB (PyVal.int 5) = false ∧ parse_paddle_result (PyVal.int 5) = []) ∧
    (parseTry c6badRaw = Except.error ⟨"TypeError"⟩ ∧
      parse_paddle_result c6badRaw = [pyStr c6badRaw]) :=
  ⟨⟨rfl, (c6_defensive (PyVal.int 5)).2.1 rfl⟩,
   ⟨rfl, (c6_defensive c6badRaw).2.2.1 ⟨"TypeError"⟩ rfl⟩⟩

/-- Claim C7, counterexample: on the reference example literally as
written, `[[ [[0,0],[1,0],[1,1],[0,1]], ("Hello", 0.98) ]]`, the normalizer
iterates the bounding box and the text pair as two separate elements of the
single entry: the box contributes `str(box[1][0]) = str(1) = "1"` and the pair
contributes `str(0.98) = "0.98"`, so the output is `["1", "0.98"]`, not
`["Hello"]`. -/
theorem c7_counterexample :
    parse_paddle_result c7specExample1 = ["1", "0.98"] ∧
    parse_paddle_result c7specExample1 ≠ ["Hello"] := by
  exact ⟨by decide, by decide⟩

/-- Claim C7 (amended): with the per-line nesting the engine produces,
`[[ [box, ("Hello", 0.98)] ]]`, the normalizer yields `["Hello"]`; the
other two reference examples hold as stated: `[{"rec_texts":
["A", "", "  B  "]}]` yields `["A", "B"]` and `None` yields `[]`. -/
theorem c7_amended :
    parse_paddle_result c7nested1 = ["Hello"] ∧
    parse_paddle_result c7example2 = ["A", "B"] ∧
    parse_paddle_result PyVal.none = [] :=
  ⟨by decide, by decide, rfl⟩

/-- Claim C1 (the code diverges from it): on an engine whose primary call
raises and which has no `predict` attribute, the `if hasattr` body of
`safe_call_ocr` completes without raising, its `except` clause never runs,
and control falls off the end of the function: the caller receives the bare
Python `None`, not the documented triple, so the "exactly one of result
non-none / strategy failed_all" contract cannot even be read off the
return value. -/
theorem c1_bare_none_return :
    safe_call_ocr c1engine false quietWorld = Except.ok (ProbeRet.pyNone, {}) ∧
    ProbeRet.pyNone ≠ ProbeRet.triple Option.none "failed_all" (some [⟨"boom"⟩]) :=
  ⟨rfl, fun h => ProbeRet.noConfusion h⟩

/-- Claim C2: `safe_call_ocr` returns normally on every engine behaviour
(the embedded control flow, which threads every exception, never produces
an `Except.error`), and whenever the attempts that are made all raise it
returns the `(None, "failed_all", errors)` triple: with a path input the
two collected errors, with an array input the three collected errors, both
when the temp-file retry itself raises and when already the save of the
array raises. -/
theorem c2_no_exception_escapes (m : Engine) (w : World) :
    (∀ p : Bool, ∃ v, safe_call_ocr m p w = Except.ok v) ∧
    (∀ e1 e2, m.ocrArg = Except.error e1 → m.hasPredict = true →
      m.predictArg = Except.error e2 →
      (safe_call_ocr m true w).map Prod.fst =
        Except.ok (ProbeRet.triple Option.none "failed_all" (some [e1, e2]))) ∧
    (∀ e1 e2 e3, m.ocrArg = Except.error e1 → m.hasPredict = true →
      m.predictArg = Except.error e2 → w.saveExc = Option.none →
      m.ocrTmpPath = Except.error e3 →
      (safe_call_ocr m false w).map Prod.fst =
        Except.ok (ProbeRet.triple Option.none "failed_all" (some [e1, e2, e3]))) ∧
    (∀ e1 e2 e3, m.ocrArg = Except.error e1 → m.hasPredict = true →
      m.predictArg = Except.error e2 → w.saveExc = some e3 →
      (safe_call_ocr m false w).map Prod.fst =
        Except.ok (ProbeRet.triple Option.none "failed_all" (some [e1, e2, e3]))) := by
  refine ⟨?_, ?_, ?_, ?_⟩
  · intro p
    unfold safe_call_ocr
    split
    · exact ⟨_, rfl⟩
    · split
      · split
        · exact ⟨_, rfl⟩
        · split
          · split
            · exact ⟨_, rfl⟩
            · split
              · exact ⟨_, rfl⟩
              · exact ⟨_, rfl⟩
          · exact ⟨_, rfl⟩
      · exact ⟨_, rfl⟩
  · intro e1 e2 h1 hp h2
    simp [safe_call_ocr, h1, hp, h2, Except.map]
  · intro e1 e2 e3 h1 hp h2 hsv h3
    simp [safe_call_ocr, h1, hp, h2, hsv, h3, Except.map]
  · intro e1 e2 e3 h1 hp h2 hsv
    simp [safe_call_ocr, h1, hp, h2, hsv, Except.map]

/-- Witness for C2 at a concrete engine whose three attempts all raise,
with the save collaborator succeeding. -/
theorem c2_witness :
    (c4engine.ocrArg = Except.error ⟨"e1"⟩ ∧ c4engine.hasPredict = true ∧
      c4engine.predictArg = Except.error ⟨"e2"⟩ ∧
      (quietWorld.saveExc = Option.none) ∧
      (⟨Except.error ⟨"e1"⟩, true, Except.error ⟨"e2"⟩, Except.error ⟨"e3"⟩⟩ :
        Engine).ocrTmpPath = Except.error ⟨"e3"⟩) ∧
    (safe_call_ocr ⟨Except.error ⟨"e1"⟩, true, Except.error ⟨"e2"⟩, Except.error ⟨"e3"⟩⟩
        false quietWorld).map Prod.fst =
      Except.ok (ProbeRet.triple Option.none "failed_all" (some [⟨"e1"⟩, ⟨"e2"⟩, ⟨"e3"⟩])) :=
  ⟨⟨rfl, rfl, rfl, rfl, rfl⟩,
   (c2_no_exception_escapes
      ⟨Except.error ⟨"e1"⟩, true, Except.error ⟨"e2"⟩, Except.error ⟨"e3"⟩⟩
      quietWorld).2.2.1 ⟨"e1"⟩ ⟨"e2"⟩ ⟨"e3"⟩ rfl rfl rfl rfl rfl⟩

/-- Claim C4, counterexample: when the primary and alternate calls both
raise and the save of the in-memory array to the just-created temp file
itself raises, `safe_call_ocr` captures the save exception as the third
error and returns `failed_all` — but the temp file, created by
`NamedTemporaryFile(delete=False)` before the save, is never removed: the
trace shows it created, `os.remove` never attempted, and the file still
existing on return, refuting "always deletes the temporary file
afterward". -/
theorem c4_counterexample :
    safe_call_ocr c4engine false c4world =
      Except.ok (ProbeRet.triple Option.none "failed_all"
          (some [⟨"e1"⟩, ⟨"e2"⟩, ⟨"disk full"⟩]),
        { predictCalled := true, tmpCreated := true, tmpExistsAfter := true }) ∧
    ((⟨true, true, false, false, true⟩ : Trace).tmpCreated = true ∧
     (⟨true, true, false, false, true⟩ : Trace).removeAttempted = false ∧
     (⟨true, true, false, false, true⟩ : Trace).tmpExistsAfter = true) :=
  ⟨rfl, rfl, rfl, rfl⟩

/-- Claim C4 (amended): when the primary and alternate calls both fail on
an array input and the write of the array to the temp file succeeds, the
fallback calls the primary entry point with the temp path and always
attempts deletion of the temp file afterward — also when that call raises —
deleting it whenever removal succeeds; and a failure of the removal is
swallowed: the returned value is the same as when removal succeeds.  If
the write itself raises, the already-created temp file is not removed
(see the counterexample). -/
theorem c4_amended (m : Engine) (w : World) (e1 e2 : PyExc)
    (h1 : m.ocrArg = Except.error e1) (hp : m.hasPredict = true)
    (h2 : m.predictArg = Except.error e2) (hsv : w.saveExc = Option.none) :
    ∃ ret tr, safe_call_ocr m false w = Except.ok (ret, tr) ∧
      tr.tmpCreated = true ∧ tr.ocrPathCalled = true ∧ tr.removeAttempted = true ∧
      (w.removeExc = Option.none → tr.tmpExistsAfter = false) ∧
      (safe_call_ocr m false { w with removeExc := Option.none }).map Prod.fst =
        Except.ok ret := by
  cases h3 : m.ocrTmpPath with
  | ok res =>
      refine ⟨ProbeRet.triple (some res) "ocr(path)" Option.none,
        { predictCalled := true, tmpCreated := true, ocrPathCalled := true,
          removeAttempted := true, tmpExistsAfter := !w.removeExc.isNone },
        ?_, rfl, rfl, rfl, ?_, ?_⟩
      · simp [safe_call_ocr, h1, hp, h2, hsv, h3]
      · intro hrm; simp [hrm]
      · simp [safe_call_ocr, h1, hp, h2, hsv, h3, Except.map]
  | error e3 =>
      refine ⟨ProbeRet.triple Option.none "failed_all" (some [e1, e2, e3]),
        { predictCalled := true, tmpCreated := true, ocrPathCalled := true,
          removeAttempted := true, tmpExistsAfter := !w.removeExc.isNone },
        ?_, rfl, rfl, rfl, ?_, ?_⟩
      · simp [safe_call_ocr, h1, hp, h2, hsv, h3]
      · intro hrm; simp [hrm]
      · simp [safe_call_ocr, h1, hp, h2, hsv, h3, Except.map]

/-- Witness for C4 (amended) at a concrete engine whose temp-path retry
raises, in a world where removal raises as well: the temp file is created,
the retry runs, removal is attempted, and the swallowed removal failure
leaves the returned value unchanged. -/
theorem c4_amended_witness :
    ((⟨Except.error ⟨"e1"⟩, true, Except.error ⟨"e2"⟩, Except.error ⟨"e3"⟩⟩ :
        Engine).ocrArg = Except.error ⟨"e1"⟩) ∧
    (∃ ret tr,
      safe_call_ocr ⟨Except.error ⟨"e1"⟩, true, Except.error ⟨"e2"⟩, Except.error ⟨"e3"⟩⟩
          false ⟨Option.none, some ⟨"remove failed"⟩⟩ = Except.ok (ret, tr) ∧
      tr.tmpCreated = true ∧ tr.ocrPathCalled = true ∧ tr.removeAttempted = true ∧
      ((⟨Option.none, some ⟨"remove failed"⟩⟩ : World).removeExc = Option.none →
        tr.tmpExistsAfter = false) ∧
      (safe_call_ocr ⟨Except.error ⟨"e1"⟩, true, Except.error ⟨"e2"⟩, Except.error ⟨"e3"⟩⟩
          false { (⟨Option.none, some ⟨"remove failed"⟩⟩ : World) with
            removeExc := Option.none }).map Prod.fst = Except.ok ret) :=
  ⟨rfl,
   c4_amended ⟨Except.error ⟨"e1"⟩, true, Except.error ⟨"e2"⟩, Except.error ⟨"e3"⟩⟩
     ⟨Option.none, some ⟨"remove failed"⟩⟩ ⟨"e1"⟩ ⟨"e2"⟩ rfl rfl rfl rfl⟩

/-- Claim C5: the strategies are tried in strict priority order and the
prober stops at the first success.  When the primary call succeeds the
returned strategy label is "ocr(img)" and the trace is empty: `predict` is
never invoked and no temp file is created; when only the primary fails and
`predict` succeeds, the label is "predict(img)" and still no temp file is
created; when both fail on an array input and the temp-path retry
succeeds, the label is "ocr(path)". -/
theorem c5_priority_order (m : Engine) (w : World) (is_path : Bool) :
    (∀ r, m.ocrArg = Except.ok r →
      safe_call_ocr m is_path w =
        Except.ok (ProbeRet.triple (some r) "ocr(img)" Option.none,
          { predictCalled := false, tmpCreated := false, ocrPathCalled := false,
            removeAttempted := false, tmpExistsAfter := false })) ∧
    (∀ e1 r, m.ocrArg = Except.error e1 → m.hasPredict = true →
      m.predictArg = Except.ok r →
      safe_call_ocr m is_path w =
        Except.ok (ProbeRet.triple (some r) "predict(img)" Option.none,
          { predictCalled := true, tmpCreated := false, ocrPathCalled := false,
            removeAttempted := false, tmpExistsAfter := false })) ∧
    (∀ e1 e2 r, m.ocrArg = Except.error e1 → m.hasPredict = true →
      m.predictArg = Except.error e2 → w.saveExc = Option.none →
      m.ocrTmpPath = Except.ok r →
      safe_call_ocr m false w =
        Except.ok (ProbeRet.triple (some r) "ocr(path)" Option.none,
          { predictCalled := true, tmpCreated := true, ocrPathCalled := true,
            removeAttempted := true, tmpExistsAfter := !w.removeExc.isNone })) := by
  refine ⟨?_, ?_, ?_⟩
  · intro r h1
    simp [safe_call_ocr, h1]
  · intro e1 r h1 hp h2
    simp [safe_call_ocr, h1, hp, h2]
  · intro e1 e2 r h1 hp h2 hsv h3
    simp [safe_call_ocr, h1, hp, h2, hsv, h3]

/-- Witness for C5 at a concrete engine whose primary call succeeds: the
first strategy label is returned and the trace records no predict call and
no temp file. -/
theorem c5_witness :
    ((⟨Except.ok (PyVal.str "ok"), true, Except.error ⟨"x"⟩, Except.error ⟨"y"⟩⟩ :
        Engine).ocrArg = Except.ok (PyVal.str "ok")) ∧
    safe_call_ocr ⟨Except.ok (PyVal.str "ok"), true, Except.error ⟨"x"⟩, Except.error ⟨"y"⟩⟩
        false quietWorld =
      Except.ok (ProbeRet.triple (some (PyVal.str "ok")) "ocr(img)" Option.none,
        { predictCalled := false, tmpCreated := false, ocrPathCalled := false,
          removeAttempted := false, tmpExistsAfter := false }) :=
  ⟨rfl,
   (c5_priority_order
      ⟨Except.ok (PyVal.str "ok"), true, Except.error ⟨"x"⟩, Except.error ⟨"y"⟩⟩
      quietWorld false).1 (PyVal.str "ok") rfl⟩

/-!
## First-match characterization of the canned-response lookup
-/

theorem cannedReply_some_spec :
    ∀ (tbl : List (String × String)) (t v : String),
      cannedReply tbl t = some v →
      ∃ pre kv post, tbl = pre ++ kv :: post ∧ pyInStr kv.1 t = true ∧ v = kv.2 ∧
        ∀ kv2 ∈ pre, pyInStr kv2.1 t = false := by
  intro tbl
  induction tbl with
  | nil => intro t v h; cases h
  | cons kv rest ih =>
      intro t v h
      unfold cannedReply at h
      by_cases hk : pyInStr kv.1 t = true
      · rw [if_pos hk] at h
        cases h
        exact ⟨[], kv, rest, rfl, hk, rfl, by simp⟩
      · rw [if_neg hk] at h
        obtain ⟨pre, kv1, post, htbl, hin, hv, hpre⟩ := ih t v h
        refine ⟨kv :: pre, kv1, post, by rw [htbl]; rfl, hin, hv, ?_⟩
        intro kv2 hkv2
        rcases List.mem_cons.mp hkv2 with h1 | h1
        · subst h1; simpa using hk
        · exact hpre kv2 h1

theorem cannedReply_none_spec :
    ∀ (tbl : List (String × String)) (t : String),
      cannedReply tbl t = Option.none → ∀ kv ∈ tbl, pyInStr kv.1 t = false := by
  intro tbl
  induction tbl with
  | nil => intro t _ kv hkv; simp at hkv
  | cons kv0 rest ih =>
      intro t h kv hkv
      unfold cannedReply at h
      by_cases hk : pyInStr kv0.1 t = true
      · rw [if_pos hk] at h; cases h
      · rw [if_neg hk] at h
        rcases List.mem_cons.mp hkv with h1 | h1
        · subst h1; simpa using hk
        · exact ih t h kv h1

/-- Claim C9: the Send handler lowercases and strips the user input, then
checks the canned table in definition order with substring containment and
the first matching keyword wins; when no keyword matches, the reply comes
from the other paths (the arithmetic path when the prepared text has a
digit, the remote completion otherwise). -/
theorem c9_canned_lookup (ts ds input : String) :
    (∀ v, cannedReply (responses ts ds) (pyStrip (pyLower input)) = some v →
      ∃ pre kv post, responses ts ds = pre ++ kv :: post ∧
        pyInStr kv.1 (pyStrip (pyLower input)) = true ∧ v = kv.2 ∧
        ∀ kv2 ∈ pre, pyInStr kv2.1 (pyStrip (pyLower input)) = false) ∧
    (cannedReply (responses ts ds) (pyStrip (pyLower input)) = Option.none →
      (∀ kv ∈ responses ts ds, pyInStr kv.1 (pyStrip (pyLower input)) = false) ∧
      ∀ (evalFn : String → Except PyExc PyVal) (oRep : String),
        computeReply (responses ts ds) input evalFn oRep =
          (if (pyStrip (pyLower input)).data.any Char.isDigit then
            (match evalFn input with
             | Except.ok v => String.mk (pyStrL v)
             | Except.error _ => "Couldn\x27t evaluate expression.", false)
           else (oRep, true))) := by
  constructor
  · intro v h
    exact cannedReply_some_spec _ _ v h
  · intro h
    refine ⟨cannedReply_none_spec _ _ h, ?_⟩
    intro evalFn oRep
    unfold computeReply
    dsimp only
    rw [h]

/-- Witness for C9 at the concrete input "Hello there": the first keyword
"hello" matches the lowered and stripped text and its fixed reply wins. -/
theorem c9_witness :
    cannedReply (responses "12:00:00" "2026-10-12") (pyStrip (pyLower "Hello there")) =
      some "Hello! How can I assist you?" ∧
    (∃ pre kv post, responses "12:00:00" "2026-10-12" = pre ++ kv :: post ∧
      pyInStr kv.1 (pyStrip (pyLower "Hello there")) = true ∧
      "Hello! How can I assist you?" = kv.2 ∧
      ∀ kv2 ∈ pre, pyInStr kv2.1 (pyStrip (pyLower "Hello there")) = false) :=
  ⟨by decide,
   (c9_canned_lookup "12:00:00" "2026-10-12" "Hello there").1 _ (by decide)⟩

/-- Claim C10: when the Send action runs on an input that is empty after
stripping, the handler takes its false branch: the conversation history is
returned unchanged, no reply of any kind is appended, and the remote
completion collaborator is not called. -/
theorem c10_blank_input_no_effect (msgs : List ChatMsg) (input : String)
    (tbl : List (String × String)) (evalFn : String → Except PyExc PyVal)
    (ollamaReply : String) (h : pyStrip input = "") :
    sendHandler msgs input tbl evalFn ollamaReply = (msgs, false) := by
  unfold sendHandler
  rw [if_pos h]

/-- Witness for C10 at the whitespace-only input "   ". -/
theorem c10_witness :
    pyStrip "   " = "" ∧
    sendHandler [] "   " (responses "12:00:00" "2026-10-12")
      (fun _ => Except.error ⟨"x"⟩) "remote reply" = ([], false) :=
  ⟨by decide,
   c10_blank_input_no_effect [] "   " (responses "12:00:00" "2026-10-12")
     (fun _ => Except.error ⟨"x"⟩) "remote reply" (by decide)⟩

/-- Claim C8: `ask_ollama` converts every failure of the remote completion
call into an error string: a transport exception of the fixed-timeout
request (the source passes `timeout=120`, embedded as the argument `120` to
the transport collaborator) becomes "Ollama error: ...", a response with a
non-200 status becomes "Error: <status> <body>", and a body whose JSON
parse raises is also caught; the embedding is total, so no exception
reaches the caller. -/
theorem c8_error_conversion (post : Nat → Except PyExc HttpResponse) :
    (∀ e, post 120 = Except.error e →
      ask_ollama post = PyVal.str ("Ollama error: " ++ e.msg)) ∧
    (∀ r, post 120 = Except.ok r → r.status_code ≠ 200 →
      ask_ollama post = PyVal.str ("Error: " ++ toString r.status_code ++ " " ++ r.text)) ∧
    (∀ r e, post 120 = Except.ok r → r.status_code = 200 → r.jsonVal = Except.error e →
      ask_ollama post = PyVal.str ("Ollama error: " ++ e.msg)) := by
  refine ⟨?_, ?_, ?_⟩
  · intro e h
    simp [ask_ollama, h]
  · intro r h hs
    simp [ask_ollama, h, hs]
  · intro r e h hs hj
    simp [ask_ollama, h, hs, hj]

/-- Witness for C8 at two concrete transports: one that raises a timeout
exception, and one that returns a 500 response. -/
theorem c8_witness :
    ask_ollama (fun _ => Except.error ⟨"Timeout"⟩) =
      PyVal.str ("Ollama error: " ++ (⟨"Timeout"⟩ : PyExc).msg) ∧
    ask_ollama (fun _ => Except.ok ⟨500, "oops", Except.ok PyVal.none⟩) =
      PyVal.str ("Error: " ++ toString (500 : Nat) ++ " " ++ "oops") :=
  ⟨(c8_error_conversion (fun _ => Except.error ⟨"Timeout"⟩)).1 ⟨"Timeout"⟩ rfl,
   (c8_error_conversion (fun _ => Except.ok ⟨500, "oops", Except.ok PyVal.none⟩)).2.1
     ⟨500, "oops", Except.ok PyVal.none⟩ rfl (by decide)⟩
